import Mathlib

/-!
Verification of the real-time voice conversation pipeline of ThaiGuide-AI.

The definitions below are a shallow embedding of the voice-interface
component (`src/components/VoiceInterface.tsx`, base variant, and
`src/unnamed/part_000`, extended variant).  The embedding follows the
extended variant, whose session/playback logic is line-for-line identical
to the base variant; the transcript fields and their handling exist only
in the extended variant.  Times and sample values are modelled as exact
rationals, resource handles (React refs holding a stream, audio nodes and
audio contexts) as booleans recording whether the handle is non-null, and
React `useState` cells as plain fields updated in program order.
-/

namespace ThaiGuide

/-- Connection status of the voice session (the `status` state cell;
`summarizing` exists only in the extended variant). -/
inductive Status where
  | disconnected
  | connecting
  | connected
  | error
  | summarizing
deriving DecidableEq

/-- Speaker role of one transcript turn. -/
inductive Role where
  | user
  | model
deriving DecidableEq

/-- One finalized conversational turn (extended variant, `TranscriptItem`). -/
structure TranscriptItem where
  role : Role
  text : String
deriving DecidableEq

/-- The fields of a `LiveServerMessage.serverContent` read by the handlers:
the inline audio payload of `modelTurn.parts[0].inlineData.data` (absent
chain modelled as `none`), the `interrupted` flag, the two transcription
deltas, and the `turnComplete` flag. -/
structure ServerContent where
  inlineAudio : Option String
  interrupted : Bool
  outputTranscription : Option String
  inputTranscription : Option String
  turnComplete : Bool
deriving DecidableEq

/-- Component state of the voice interface.  `stream`, `processor`,
`inputSource`, `audioCtx`, `inputAudioCtx` and `sessionSet` record whether
the corresponding ref (`streamRef`, `processorRef`, `inputSourceRef`,
`audioContextRef`, `inputAudioContextRef`, `sessionRef`) holds a live
resource.  `nextStartTime` is the playback cursor `nextStartTimeRef`.
`currentInputRef`/`currentOutputRef` are the pending transcript
accumulator refs; `currentInput`/`currentOutput` are their mirrored render
state cells (the source updates the ref and the state cell separately, and
not always together, so both are kept). -/
structure ExtState where
  stream : Bool
  processor : Bool
  inputSource : Bool
  audioCtx : Bool
  inputAudioCtx : Bool
  sessionSet : Bool
  isConnected : Bool
  status : Status
  volume : ℚ
  nextStartTime : ℚ
  transcripts : List TranscriptItem
  transcriptHistory : List TranscriptItem
  currentInputRef : String
  currentOutputRef : String
  currentInput : String
  currentOutput : String
  summaryMessage : Option String
deriving DecidableEq

/-- The externally visible release operations performed by `disconnect()`,
in the order the source performs them. -/
inductive TeardownAction where
  | stopTracks
  | disconnectProcessor
  | disconnectSource
  | closeAudioCtx
  | closeInputCtx
deriving DecidableEq

/-- `disconnect` (part_000 lines 42-71; base variant lines 20-45 is the
restriction to the non-transcript fields).  Each nullable ref is checked,
released and cleared independently; then the connection flag, volume,
status and pending transcript accumulators are reset.  The returned list
records which release operations were actually invoked.  `sessionRef` is
not cleared by the source and so `sessionSet` is left untouched. -/
def disconnect (s : ExtState) : List TeardownAction × ExtState :=
  ((if s.stream then [TeardownAction.stopTracks] else []) ++
   (if s.processor then [TeardownAction.disconnectProcessor] else []) ++
   (if s.inputSource then [TeardownAction.disconnectSource] else []) ++
   (if s.audioCtx then [TeardownAction.closeAudioCtx] else []) ++
   (if s.inputAudioCtx then [TeardownAction.closeInputCtx] else []),
   { s with
      stream := false
      processor := false
      inputSource := false
      audioCtx := false
      inputAudioCtx := false
      isConnected := false
      volume := 0
      status := Status.disconnected
      currentInput := ""
      currentOutput := ""
      currentInputRef := ""
      currentOutputRef := "" })

/-- `onerror` callback (part_000 lines 270-274; base variant lines
164-168): `setStatus('error')` followed by `disconnect()`. -/
def onerror (s : ExtState) : List TeardownAction × ExtState :=
  disconnect { s with status := Status.error }

/-- Finalize the pending user turn (part_000 lines 207-213 and 225-231):
append a user `TranscriptItem` holding the accumulated text to both the
render list and the history ref, then clear the accumulator. -/
def flushUser (s : ExtState) : ExtState :=
  { s with
      transcripts := s.transcripts ++ [⟨Role.user, s.currentInputRef⟩]
      transcriptHistory := s.transcriptHistory ++ [⟨Role.user, s.currentInputRef⟩]
      currentInputRef := ""
      currentInput := "" }

/-- Finalize the pending model turn (part_000 lines 232-238 and 257-263). -/
def flushModel (s : ExtState) : ExtState :=
  { s with
      transcripts := s.transcripts ++ [⟨Role.model, s.currentOutputRef⟩]
      transcriptHistory := s.transcriptHistory ++ [⟨Role.model, s.currentOutputRef⟩]
      currentOutputRef := ""
      currentOutput := "" }

/-- Accumulate an output-transcription delta (part_000 lines 215-217). -/
def appendOutput (d : String) (s : ExtState) : ExtState :=
  { s with
      currentOutputRef := s.currentOutputRef ++ d
      currentOutput := s.currentOutputRef ++ d }

/-- Accumulate an input-transcription delta (part_000 lines 219-221). -/
def appendInput (d : String) (s : ExtState) : ExtState :=
  { s with
      currentInputRef := s.currentInputRef ++ d
      currentInput := s.currentInputRef ++ d }

/-- Modelled from the spec: the inbound audio decode chain
`atob` (a host platform builtin) followed by `decodeAudioData` from
`services/audioUtils`, a repository file that is not under `src/`.  The
spec describes it as: decode the base64 payload to raw bytes, then decode
raw PCM into a playable buffer at the known fixed sample rate, where
malformed/undecodable payloads fail.  It is modelled as an abstract
function from the base64 payload to the duration of the decoded buffer,
with `none` meaning the decode throws. -/
abbrev DecodeFn : Type := String → Option ℚ

/-- Interruption handling at the end of `onmessage` (part_000 lines
255-264; base variant lines 156-158 without the model flush): reset the
playback cursor to the context's current time, then (extended variant)
finalize any pending model text. -/
def applyInterrupted (ctxTime : ℚ) (intr : Bool) (s : ExtState) : ExtState :=
  if intr then
    let s1 := { s with nextStartTime := ctxTime }
    if s1.currentOutputRef ≠ "" then flushModel s1 else s1
  else s

/-- Result of one run of the `onmessage` callback: whether an exception
escaped the handler (the handler body has no try/catch, so a decode
failure propagates out of the async callback), the start time passed to
`source.start` if a frame was scheduled, and the component state after the
run (refs keep the value they had when the exception was raised). -/
structure HandlerResult where
  threw : Bool
  started : Option ℚ
  state : ExtState
deriving DecidableEq

/-- `onmessage` callback (part_000 lines 201-265; base variant lines
136-159 is the restriction to the audio and interruption steps), at
context clock `ctxTime`, decoding payloads with `dec`.  Steps in source
order: (1) output-transcription delta — finalize a non-empty pending user
turn, then accumulate; else input-transcription delta — accumulate;
(2) `turnComplete` — finalize non-empty pending user then model turns;
(3) inline audio — decode (a failure here escapes the handler) and
schedule at `max(cursor, ctxTime)`, advancing the cursor by the buffer
duration; (4) `interrupted` — reset the cursor, finalize pending model
text. -/
def onmessage (dec : DecodeFn) (ctxTime : ℚ) (msg : ServerContent) (s : ExtState) :
    HandlerResult :=
  let s1 :=
    match msg.outputTranscription with
    | some d => appendOutput d (if s.currentInputRef ≠ "" then flushUser s else s)
    | none =>
      match msg.inputTranscription with
      | some d => appendInput d s
      | none => s
  let s2 :=
    if msg.turnComplete then
      let s1a := if s1.currentInputRef ≠ "" then flushUser s1 else s1
      if s1a.currentOutputRef ≠ "" then flushModel s1a else s1a
    else s1
  match msg.inlineAudio with
  | some payload =>
    if payload = "" then
      ⟨false, none, applyInterrupted ctxTime msg.interrupted s2⟩
    else
      match dec payload with
      | none => ⟨true, none, s2⟩
      | some dur =>
        let startTime := max s2.nextStartTime ctxTime
        ⟨false, some startTime,
         applyInterrupted ctxTime msg.interrupted
           { s2 with nextStartTime := startTime + dur }⟩
  | none => ⟨false, none, applyInterrupted ctxTime msg.interrupted s2⟩

/-- Environment of one `connect()` call: whether the API-key credential is
configured, and whether `getUserMedia` resolves (microphone granted). -/
structure ConnectEnv where
  hasApiKey : Bool
  micGranted : Bool
deriving DecidableEq

/-- The prologue of `connect()` (part_000 lines 99-105), run before the
`try` block: clear the finalized transcript list, the transcript history
ref, the summary message, both pending accumulator refs, and enter
`connecting`.  The mirrored `currentInput`/`currentOutput` render cells
are not touched here by the source. -/
def connectInit (s : ExtState) : ExtState :=
  { s with
      transcripts := []
      transcriptHistory := []
      summaryMessage := none
      status := Status.connecting
      currentInputRef := ""
      currentOutputRef := "" }

/-- `connect()` up to session initiation (part_000 lines 98-298; base
variant lines 47-190): after the prologue, the `try` block throws if no
API key is configured, creates the output audio context and stores it in
its ref, creates the input audio context and stores it in its ref, then
awaits `getUserMedia`.  Any of these throwing is handled by the `catch`
block, which only does `setStatus('error')`.  On success the stream is
stored and the live-session promise is stored in `sessionRef`
(the `onopen`/`onmessage` callbacks fire later and are modelled
separately). -/
def connect (env : ConnectEnv) (s : ExtState) : ExtState :=
  let s0 := connectInit s
  if env.hasApiKey = false then { s0 with status := Status.error }
  else
    let s1 := { s0 with audioCtx := true }
    let s2 := { s1 with inputAudioCtx := true }
    if env.micGranted = false then { s2 with status := Status.error }
    else { s2 with stream := true, sessionSet := true }

/-- Clipping of one capture sample to `[-1, 1]` (part_000 line 177;
base variant line 111). -/
def clip (x : ℚ) : ℚ := max (-1) (min 1 x)

/-- Truncation toward zero, the conversion a JS `Int16Array` element
assignment applies to its operand before the 16-bit wrap. -/
def truncInt (q : ℚ) : ℤ := if q < 0 then -⌊-q⌋ else ⌊q⌋

/-- Wrap of an integer into the signed 16-bit range, as performed by a JS
`Int16Array` element store. -/
def toInt16 (t : ℤ) : ℤ := (t + 32768) % 65536 - 32768

/-- PCM16 quantization of one sample (part_000 lines 176-179; base variant
lines 109-113): clip to `[-1, 1]`, scale negative values by `0x8000` and
non-negative ones by `0x7FFF`, and store into an `Int16Array` slot. -/
def pcm16Sample (x : ℚ) : ℤ :=
  let s := clip x
  toInt16 (truncInt (if s < 0 then s * 32768 else s * 32767))

/-- The subsampled sum of squares of the volume computation (part_000
line 168; base variant line 101): every 10th sample of the capture block,
squared and summed. -/
def sumSquaresSub10 (xs : List ℚ) : ℚ :=
  (((List.range xs.length).filter (fun i => i % 10 = 0)).map
    (fun i => xs.getD i 0 * xs.getD i 0)).sum

/-- The volume telemetry value written by `setVolume` (part_000 lines
167-170; base variant lines 99-103): `min 1 (rms * 5)` where
`rms = sqrt(sum / (len / 10))`.  The host `Math.sqrt` is modelled as an
abstract parameter `msqrt`; the claims only use that a square root of a
non-negative number is non-negative. -/
def volumeSample (msqrt : ℚ → ℚ) (xs : List ℚ) : ℚ :=
  min 1 (msqrt (sumSquaresSub10 xs / ((xs.length : ℚ) / 10)) * 5)

/-- A connected state with the playback cursor at 0 and no pending
transcript text, as after `onopen` ran at context time 0. -/
def initState : ExtState :=
  { stream := true
    processor := true
    inputSource := true
    audioCtx := true
    inputAudioCtx := true
    sessionSet := true
    isConnected := true
    status := Status.connected
    volume := 0
    nextStartTime := 0
    transcripts := []
    transcriptHistory := []
    currentInputRef := ""
    currentOutputRef := ""
    currentInput := ""
    currentOutput := ""
    summaryMessage := none }

/-- A never-connected state: every resource handle null, status
disconnected. -/
def freshState : ExtState :=
  { stream := false
    processor := false
    inputSource := false
    audioCtx := false
    inputAudioCtx := false
    sessionSet := false
    isConnected := false
    status := Status.disconnected
    volume := 0
    nextStartTime := 0
    transcripts := []
    transcriptHistory := []
    currentInputRef := ""
    currentOutputRef := ""
    currentInput := ""
    currentOutput := ""
    summaryMessage := none }

/-- A server message carrying only an inline audio payload. -/
def audioMsg (p : String) : ServerContent := ⟨some p, false, none, none, false⟩

/-- A server message carrying only the interruption signal. -/
def interruptMsg : ServerContent := ⟨none, true, none, none, false⟩

/-- A server message carrying only an output-transcription delta. -/
def outputDeltaMsg (d : String) : ServerContent := ⟨none, false, some d, none, false⟩

/-- A connected state in which the pending user accumulator holds the
partial user utterance "Bangkok". -/
def bangkokState : ExtState :=
  { initState with currentInputRef := "Bangkok", currentInput := "Bangkok" }

/-- A concrete decoder table used for the concrete scenarios: payloads
decoding to buffers of duration 1 s, 0.5 s, 0.2 s and 0.3 s. -/
def decTable : DecodeFn := fun p =>
  if p = "f1" then some 1
  else if p = "f2" then some (1/2)
  else if p = "f3" then some (1/5)
  else if p = "f4" then some (3/10)
  else none

/-! ### Helper lemmas -/

theorem clip_mem_Icc (x : ℚ) : -1 ≤ clip x ∧ clip x ≤ 1 := by
  unfold clip
  constructor
  · exact le_max_left _ _
  · rcases le_total (-1 : ℚ) (min 1 x) with h | h
    · rw [max_eq_right h]
      exact min_le_left _ _
    · rw [max_eq_left h]
      linarith

theorem truncInt_scaled_range (s : ℚ) (h1 : -1 ≤ s) (h2 : s ≤ 1) :
    -32768 ≤ truncInt (if s < 0 then s * 32768 else s * 32767) ∧
    truncInt (if s < 0 then s * 32768 else s * 32767) ≤ 32767 := by
  by_cases hs : s < 0
  · rw [if_pos hs]
    unfold truncInt
    have hq : s * 32768 < 0 := by nlinarith
    rw [if_pos hq]
    have hub : ⌊-(s * 32768)⌋ ≤ 32768 := by
      have : -(s * 32768) ≤ (32768 : ℚ) := by nlinarith
      have h3 : ⌊-(s * 32768)⌋ ≤ ⌊(32768 : ℚ)⌋ := Int.floor_le_floor this
      simpa using h3
    have hlb : 0 ≤ ⌊-(s * 32768)⌋ := by
      apply Int.floor_nonneg.mpr
      linarith
    omega
  · rw [if_neg hs]
    push_neg at hs
    unfold truncInt
    have hq : ¬ s * 32767 < 0 := by nlinarith
    rw [if_neg hq]
    have hub : ⌊s * 32767⌋ ≤ 32767 := by
      have : s * 32767 ≤ (32767 : ℚ) := by nlinarith
      have h3 : ⌊s * 32767⌋ ≤ ⌊(32767 : ℚ)⌋ := Int.floor_le_floor this
      simpa using h3
    have hlb : 0 ≤ ⌊s * 32767⌋ := by
      apply Int.floor_nonneg.mpr
      nlinarith
    omega

theorem toInt16_eq_of_range (t : ℤ) (h1 : -32768 ≤ t) (h2 : t ≤ 32767) :
    toInt16 t = t := by
  unfold toInt16
  omega

theorem onmessage_audio_run (dec : DecodeFn) (t dur : ℚ) (p : String) (s : ExtState)
    (hp : p ≠ "") (hdec : dec p = some dur) :
    onmessage dec t (audioMsg p) s
      = ⟨false, some (max s.nextStartTime t),
         { s with nextStartTime := max s.nextStartTime t + dur }⟩ := by
  simp [onmessage, audioMsg, applyInterrupted, hp, hdec]

theorem onmessage_interrupt_run (dec : DecodeFn) (t : ℚ) (s : ExtState)
    (hout : s.currentOutputRef = "") :
    onmessage dec t interruptMsg s = ⟨false, none, { s with nextStartTime := t }⟩ := by
  simp [onmessage, interruptMsg, applyInterrupted, hout]

/-! ### Claim theorems -/

/-- C1: every inbound audio frame that decodes successfully is scheduled
to start at `max(cursor, context.currentTime)` and the cursor then
advances to `scheduledStart + bufferDuration`; in particular three frames
of durations 1 s, 0.5 s, 0.2 s arriving in that order with the cursor at
0 and the context clock pinned at 0 are scheduled at 0, 1 and 1.5, and
the cursor ends at 1.7. -/
theorem playback_schedule :
    (∀ (dec : DecodeFn) (t dur : ℚ) (p : String) (s : ExtState),
        p ≠ "" → dec p = some dur →
        (onmessage dec t (audioMsg p) s).threw = false ∧
        (onmessage dec t (audioMsg p) s).started = some (max s.nextStartTime t) ∧
        (onmessage dec t (audioMsg p) s).state.nextStartTime
          = max s.nextStartTime t + dur)
    ∧
    onmessage decTable 0 (audioMsg "f1") initState
      = ⟨false, some 0, { initState with nextStartTime := 1 }⟩
    ∧
    onmessage decTable 0 (audioMsg "f2") { initState with nextStartTime := 1 }
      = ⟨false, some 1, { initState with nextStartTime := 3/2 }⟩
    ∧
    onmessage decTable 0 (audioMsg "f3") { initState with nextStartTime := 3/2 }
      = ⟨false, some (3/2), { initState with nextStartTime := 17/10 }⟩ := by
  refine ⟨?_, ?_, ?_, ?_⟩
  · intro dec t dur p s hp hdec
    rw [onmessage_audio_run dec t dur p s hp hdec]
    exact ⟨rfl, rfl, rfl⟩
  · rw [onmessage_audio_run decTable 0 1 "f1" initState (by decide) rfl]
    norm_num [initState]
  · rw [onmessage_audio_run decTable 0 (1/2) "f2" { initState with nextStartTime := 1 }
      (by decide) rfl]
    norm_num [initState]
  · rw [onmessage_audio_run decTable 0 (1/5) "f3" { initState with nextStartTime := 3/2 }
      (by decide) rfl]
    norm_num [initState]

/-- C1 witness: the scheduling rule evaluated for the first concrete
frame. -/
theorem playback_schedule_witness :
    ("f1" : String) ≠ "" ∧ decTable "f1" = some 1 ∧
    (onmessage decTable 0 (audioMsg "f1") initState).started
      = some (max initState.nextStartTime 0) :=
  ⟨by decide, rfl,
   (playback_schedule.1 decTable 0 1 "f1" initState (by decide) rfl).2.1⟩

/-- C3: an interruption signal resets the playback cursor to the
context's current time; concretely, with the cursor left at 5 an
interruption at context time 2 resets it to 2, and a following frame of
duration 0.3 s is scheduled at 2 and moves the cursor to 2.3. -/
theorem interrupt_resets_cursor :
    (∀ (dec : DecodeFn) (t : ℚ) (s : ExtState),
        (onmessage dec t interruptMsg s).state.nextStartTime = t)
    ∧
    onmessage decTable 2 interruptMsg { initState with nextStartTime := 5 }
      = ⟨false, none, { initState with nextStartTime := 2 }⟩
    ∧
    onmessage decTable 2 (audioMsg "f4") { initState with nextStartTime := 2 }
      = ⟨false, some 2, { initState with nextStartTime := 23/10 }⟩ := by
  refine ⟨?_, ?_, ?_⟩
  · intro dec t s
    by_cases h : s.currentOutputRef = "" <;>
      simp [onmessage, interruptMsg, applyInterrupted, flushModel, h]
  · rw [onmessage_interrupt_run decTable 2 { initState with nextStartTime := 5 } rfl]
  · rw [onmessage_audio_run decTable 2 (3/10) "f4" { initState with nextStartTime := 2 }
      (by decide) rfl]
    norm_num [initState]

/-- C4 counterexample: on a malformed payload the decode exception does
escape the `onmessage` handler — the handler body has no try/catch, so
the claim that the handler never throws uncaught fails at this concrete
input. -/
theorem decode_error_escapes_handler :
    (onmessage (fun _ => none) 0 (audioMsg "x") initState).threw = true := by
  simp [onmessage, audioMsg]

/-- C4 (amended): on a malformed or undecodable audio payload the decode
exception propagates out of the handler (as an async rejection, there
being no catch), but the frame is dropped — nothing is scheduled — and
the component state, in particular the playback cursor and the connection
status, is left exactly unchanged. -/
theorem decode_error_drops_frame :
    ∀ (dec : DecodeFn) (t : ℚ) (p : String) (s : ExtState),
      p ≠ "" → dec p = none →
      (onmessage dec t (audioMsg p) s).threw = true ∧
      (onmessage dec t (audioMsg p) s).started = none ∧
      (onmessage dec t (audioMsg p) s).state = s := by
  intro dec t p s hp hdec
  simp [onmessage, audioMsg, hp, hdec]

/-- C4 witness: the amended claim evaluated at a concrete undecodable
payload in a connected state. -/
theorem decode_error_drops_frame_witness :
    ("bad" : String) ≠ "" ∧ (fun _ : String => (none : Option ℚ)) "bad" = none ∧
    (onmessage (fun _ => none) 0 (audioMsg "bad") initState).state = initState :=
  ⟨by decide, rfl,
   (decode_error_drops_frame (fun _ => none) 0 "bad" initState (by decide) rfl).2.2⟩

/-- C6 counterexample: starting from a never-connected state, a
`connect()` whose microphone request is denied ends with status `error`
but with both audio contexts — created before the microphone request —
still acquired, contradicting the claim that every resource opened before
the failure is released. -/
theorem connect_mic_denied_leaks_contexts :
    (connect ⟨true, false⟩ freshState).status = Status.error ∧
    (connect ⟨true, false⟩ freshState).audioCtx = true ∧
    (connect ⟨true, false⟩ freshState).inputAudioCtx = true :=
  ⟨rfl, rfl, rfl⟩

/-- C6 (amended): if `connect()` fails because microphone access is
denied, status is set to `error` and no stream or session resource is
acquired, but the two audio contexts created before the microphone
request remain acquired — the `catch` block only sets the status and runs
no teardown, so they are released only by a later `disconnect()` or by
unmount cleanup. -/
theorem connect_mic_denied_state :
    ∀ s : ExtState,
      (connect ⟨true, false⟩ s).status = Status.error ∧
      (connect ⟨true, false⟩ s).audioCtx = true ∧
      (connect ⟨true, false⟩ s).inputAudioCtx = true ∧
      (connect ⟨true, false⟩ s).stream = s.stream ∧
      (connect ⟨true, false⟩ s).processor = s.processor ∧
      (connect ⟨true, false⟩ s).inputSource = s.inputSource ∧
      (connect ⟨true, false⟩ s).sessionSet = s.sessionSet := by
  intro s
  simp [connect, connectInit]

/-- C8: an output-transcription delta arriving while the pending user
accumulator is non-empty finalizes the pending user turn — appending a
user `TranscriptItem` with the accumulated text to the transcript list
and history and clearing the accumulator — in the same processing step,
before the delta's text is merely accumulated into the pending model
text; concretely with pending user text "Bangkok". -/
theorem output_delta_flushes_pending_user :
    (∀ (dec : DecodeFn) (t : ℚ) (d : String) (s : ExtState),
        s.currentInputRef ≠ "" →
        (onmessage dec t (outputDeltaMsg d) s).state.transcripts
          = s.transcripts ++ [⟨Role.user, s.currentInputRef⟩] ∧
        (onmessage dec t (outputDeltaMsg d) s).state.transcriptHistory
          = s.transcriptHistory ++ [⟨Role.user, s.currentInputRef⟩] ∧
        (onmessage dec t (outputDeltaMsg d) s).state.currentInputRef = "" ∧
        (onmessage dec t (outputDeltaMsg d) s).state.currentOutputRef
          = s.currentOutputRef ++ d)
    ∧
    onmessage decTable 0 (outputDeltaMsg "Sure") bangkokState
      = ⟨false, none,
         { initState with
            transcripts := [⟨Role.user, "Bangkok"⟩]
            transcriptHistory := [⟨Role.user, "Bangkok"⟩]
            currentOutputRef := "Sure"
            currentOutput := "Sure" }⟩ := by
  constructor
  · intro dec t d s h
    simp [onmessage, outputDeltaMsg, applyInterrupted, flushUser, appendOutput, h]
  · simp [onmessage, outputDeltaMsg, applyInterrupted, flushUser, appendOutput,
      bangkokState, initState]

/-- C8 witness: the flush rule evaluated at the concrete pending text
"Bangkok". -/
theorem output_delta_flushes_pending_user_witness :
    bangkokState.currentInputRef ≠ "" ∧
    (onmessage decTable 0 (outputDeltaMsg "Sure") bangkokState).state.transcripts
      = bangkokState.transcripts ++ [⟨Role.user, bangkokState.currentInputRef⟩] :=
  ⟨by decide,
   (output_delta_flushes_pending_user.1 decTable 0 "Sure" bangkokState (by decide)).1⟩

/-- C9: for every capture block, including synthetic input with samples
outside `[-1, 1]`, the volume telemetry value written for the UI lies in
`[0, 1]`: it is the clamp to at most 1 of five times a square root of a
non-negative mean of squares, for any square-root function that is
non-negative on non-negative inputs. -/
theorem volume_in_unit_interval :
    ∀ (msqrt : ℚ → ℚ) (xs : List ℚ),
      (∀ x : ℚ, 0 ≤ x → 0 ≤ msqrt x) →
      0 ≤ volumeSample msqrt xs ∧ volumeSample msqrt xs ≤ 1 := by
  intro msqrt xs h
  have hsum : 0 ≤ sumSquaresSub10 xs := by
    apply List.sum_nonneg
    intro y hy
    simp only [List.mem_map] at hy
    obtain ⟨i, -, rfl⟩ := hy
    exact mul_self_nonneg _
  have hdiv : (0 : ℚ) ≤ sumSquaresSub10 xs / ((xs.length : ℚ) / 10) := by
    apply div_nonneg hsum
    positivity
  have hr := h _ hdiv
  unfold volumeSample
  constructor
  · apply le_min
    · norm_num
    · nlinarith
  · exact min_le_left _ _

/-- C9 witness: the clamp evaluated on a one-sample block whose sample 2
lies outside `[-1, 1]`. -/
theorem volume_in_unit_interval_witness :
    (∀ x : ℚ, 0 ≤ x → 0 ≤ (fun _ : ℚ => (0 : ℚ)) x) ∧
    0 ≤ volumeSample (fun _ => 0) [2] ∧ volumeSample (fun _ => 0) [2] ≤ 1 :=
  ⟨fun _ _ => le_refl 0,
   volume_in_unit_interval (fun _ => 0) [2] (fun _ _ => le_refl 0)⟩

/-- C2: the capture pipeline's PCM16 quantization clips each sample to
`[-1, 1]`, scales negative values by `0x8000` and non-negative ones by
`0x7FFF` with truncation to a 16-bit signed integer; on the samples
-1.0, -0.5, 0.0, 0.5, 1.0 it produces exactly -32768, -16384, 0, 16383,
32767, and every output lies in the signed 16-bit range. -/
theorem pcm16_quantization :
    ([(-1 : ℚ), -1/2, 0, 1/2, 1].map pcm16Sample
      = [(-32768 : ℤ), -16384, 0, 16383, 32767])
    ∧ ∀ x : ℚ, -32768 ≤ pcm16Sample x ∧ pcm16Sample x ≤ 32767 := by
  constructor
  · norm_num [pcm16Sample, clip, truncInt, toInt16, min_def, max_def]
  · intro x
    obtain ⟨h1, h2⟩ := clip_mem_Icc x
    obtain ⟨h3, h4⟩ := truncInt_scaled_range (clip x) h1 h2
    unfold pcm16Sample
    rw [toInt16_eq_of_range _ h3 h4]
    exact ⟨h3, h4⟩

/-- C5: `disconnect()` is idempotent: from every starting state (including
never-connected states with all handles null), a second consecutive call
leaves the state exactly as the first call left it and performs no
release operation at all (so nothing can error). -/
theorem disconnect_idempotent :
    ∀ s : ExtState,
      (disconnect (disconnect s).2).2 = (disconnect s).2 ∧
      (disconnect (disconnect s).2).1 = [] := by
  intro s
  constructor
  · rfl
  · rfl

/-- C7 counterexample: from a fully connected state, after the remote
error callback runs, the observable status is `disconnected`, not
`error` — the `setStatus('error')` performed first is overwritten by the
`disconnect()` teardown that follows it. -/
theorem onerror_final_status_not_error :
    (onerror initState).2.status = Status.disconnected ∧
    Status.disconnected ≠ Status.error := by
  constructor
  · rfl
  · decide

/-- C7 (amended): when the remote session's error callback fires, the
component sets status to `error` and then performs the full teardown
identical to `disconnect()` (same release operations, same resulting
state), so after the callback completes the observable status is
`disconnected`, the transient `error` status having been overwritten by
the teardown. -/
theorem onerror_teardown_resolves_disconnected :
    ∀ s : ExtState,
      onerror s = disconnect s ∧
      (onerror s).2.status = Status.disconnected := by
  intro s
  constructor
  · rfl
  · rfl

/-- C10: every `connect()` call in the extended variant clears the
finalized transcript list, the transcript history, both pending
accumulators and the summary message in its prologue — which acquires no
resource — and therefore, whatever the outcome of the subsequent resource
acquisition, the resulting state still has an empty transcript history. -/
theorem connect_clears_transcript_state :
    ∀ (env : ConnectEnv) (s : ExtState),
      (connectInit s).transcripts = [] ∧
      (connectInit s).transcriptHistory = [] ∧
      (connectInit s).currentInputRef = "" ∧
      (connectInit s).currentOutputRef = "" ∧
      (connectInit s).summaryMessage = none ∧
      (connectInit s).audioCtx = s.audioCtx ∧
      (connectInit s).inputAudioCtx = s.inputAudioCtx ∧
      (connectInit s).stream = s.stream ∧
      (connectInit s).sessionSet = s.sessionSet ∧
      (connect env s).transcripts = [] ∧
      (connect env s).transcriptHistory = [] ∧
      (connect env s).currentInputRef = "" ∧
      (connect env s).currentOutputRef = "" ∧
      (connect env s).summaryMessage = none := by
  intro env s
  obtain ⟨hk, mg⟩ := env
  unfold connect connectInit
  cases hk <;> cases mg <;> simp

end ThaiGuide
